import Mathlib

/-!
Verification development for the Anki-Night-Mode add-on.

Version 1 (`Night_Mode.py`) is embedded in namespace `NightModeV1`:
profile persistence (`nm_save` / `nm_load`), style assembly
(`nm_append_to_styles` and the CSS string constants), the on/off switch
(`nm_on` / `nm_off`), menu state, and the latex-command rewriting
(`nm_tlatex` / `nm_make_latex_transparent`).

Version 2 (`night_mode/night_mode.py`) is embedded in namespace
`NightModeV2`: `StylingManager.replace` / `StylingManager.restore` and
`NightMode.night_class_injection`.

Python dictionaries are modelled as association lists, Python values that
can live in the profile as `PValue` (the add-on stores booleans and
strings), mutable module globals as a state record threaded through the
functions, and exceptions as an `ok` flag on a result record that keeps
the state mutated up to the point of failure (Python semantics: global
assignments performed before an exception persist).
-/

namespace NightModeV1

/-- A Python value as stored in the profile dictionary or in one of the
add-on's seven setting globals: the add-on only ever stores booleans and
strings there. -/
inductive PValue
  | b (v : Bool)
  | s (v : String)
deriving DecidableEq, Repr

/-- Python truthiness of a `PValue` (`if nm_state_on:` etc.). -/
def truthy : PValue → Bool
  | .b v => v
  | .s v => v ≠ ""

/-- Extract a string from a `PValue`; `none` models the `TypeError` Python
raises when a non-string meets string concatenation. -/
def pstr : PValue → Option String
  | .b _ => none
  | .s v => some v

/-- The host profile dictionary `mw.pm.profile`, modelled as an
association list from key to stored value. -/
abbrev Profile := List (String × PValue)

/-- Python `dict[key]` lookup returning `none` when the key is absent. -/
def dict_get : Profile → String → Option PValue
  | [], _ => none
  | (k, v) :: rest, key => if k = key then some v else dict_get rest key

/-- Python `dict[key] = value`: overwrite the binding if present,
otherwise add it at the end. -/
def dict_set : Profile → String → PValue → Profile
  | [], key, v => [(key, v)]
  | (k, w) :: rest, key, v =>
      if k = key then (key, v) :: rest else (k, w) :: dict_set rest key v

/-- Python `dict.get(key, default)`. -/
def pgetD (p : Profile) (key : String) (d : PValue) : PValue :=
  (dict_get p key).getD d

/-! The wal colour theme (`from colors import wal; theme = wal()`) is an
external library, not part of this repository; its colours are modelled
as opaque distinct string constants. -/

def theme_color0 : String := "wal-color0"
def theme_color1 : String := "wal-color1"
def theme_color3 : String := "wal-color3"
def theme_color4 : String := "wal-color4"
def theme_color7 : String := "wal-color7"
def theme_foreground : String := "wal-foreground"

/-! Colour globals of the add-on (customizable ones live in the mutable
state; the hardcoded ones are module constants). -/

def nm_color_s : String := theme_color0
def nm_color_tl : String := "#ffffff"
def nm_color_al : String := theme_color4
def nm_color_ad : String := theme_color3

/-- The user-editable colour replacement mapping, a module-level dict
(`nm_custom_color_map`) in the source. -/
def nm_custom_color_map : List (String × String) :=
  [("#007700", "#30DC16"),
   ("#000099", "#00BBFF"),
   ("#C35617", "#D46728"),
   ("#00a", "#00BBFF")]

/-- Python `nm_css_custom_color_map()`: builds the replacement CSS by folding
over the dict entries. -/
def nm_css_custom_color_map : String :=
  nm_custom_color_map.foldl
    (fun css kv =>
      css ++ "font[color=\"" ++ kv.1 ++ "\"]\x7bcolor:" ++ kv.2 ++ "!important\x7d")
    ""

/-- Python `nm_make_css_custom_colors_string()`, applied to the current text and
background colours (already known to be strings). -/
def nm_make_css_custom_colors_string (td bl : String) : String :=
  "color:" ++ td ++ ";\n" ++ "background:" ++ bl ++ ";"

/-- Module-level initial value of `nm_css_custom_colors`, computed once
at module load from the initial colours (`theme.foreground`, `theme.color1`). -/
def nm_css_custom_colors_initial : String :=
  nm_make_css_custom_colors_string theme_foreground theme_color1

/-- Python `nm_card_color_css()`: uses the current text colour only. -/
def nm_card_color_css (td : String) : String :=
  ".card \x7b    color:" ++ td ++ "!important;" ++
  "background-color:#blue!important\x7d"

/-- Python `nm_body_color_css()`: uses the current text colour only. -/
def nm_body_color_css (td : String) : String :=
  " body \x7b    color:" ++ td ++ "!important;" ++
  "background-color:!important\x7d"

/-! Module-level CSS string constants, computed once at import time from
the initial colour globals (so `nm_color_bl` appears as `theme_color1`
and `nm_color_td` as `theme_foreground` below). -/

def nm_css_button_idle : String :=
  "\n    background:" ++ theme_color1 ++ ";\n    color:" ++ nm_color_tl ++
  ";\n    margin-top:5px;\n    position:relative;\n    top:0;" ++
  "\n    padding:3px 8px;\n    border:1px solid #3E474D;" ++
  "\n    border-top-color:#1c252b;\n    border-left-color:#2d363c;\n"

def nm_css_button_hover : String :=
  "\n    background: " ++ nm_color_ad ++ ";\n    color:" ++ nm_color_tl ++ ";\n"

def nm_css_button_active : String :=
  "\n    background: " ++ nm_color_al ++ ";\n    color:" ++ nm_color_tl ++ ";\n"

def nm_css_buttons : String :=
  "\nbutton\n\x7b\n    " ++ nm_css_button_idle ++
  "\n    text-shadow:1px 1px #1f272b;\n    display:inline-block;" ++
  "\n    -webkit-box-shadow:1px 1px 1px rgba(0,0,0,0.1);" ++
  "\n    -webkit-border-radius:3px\n\x7d\nbutton:hover\n\x7b\n    " ++
  nm_css_button_hover ++ "\n\x7d\nbutton:active\n\x7b\n    " ++
  nm_css_button_active ++
  "\n    -webkit-box-shadow:1px 1px 1px rgba(255,255,255,0.1);\n\x7d\n"

def nm_css_color_replacer : String :=
  "\nfont[color=\"#007700\"],span[style=\"color:#070\"]" ++
  "\n\x7b\n    color:#30dc16!important\n\x7d" ++
  "\nfont[color=\"#000099\"],span[style=\"color:#00F\"]" ++
  "\n\x7b\n    color:#00BBFF!important\n\x7d" ++
  "\nfont[color=\"#C35617\"],span[style=\"color:#c00\"]" ++
  "\n\x7b\n    color:#E79292!important\n\x7d" ++
  "\nfont[color=\"#00a\"]\n\x7b\n    color:#00BBFF\n\x7d\n"

def nm_css_bottom : String :=
  nm_css_buttons ++ nm_css_color_replacer ++
  "\nbody, #outer\n\x7b\n    background: " ++ theme_color1 ++
  ";\n    color: " ++ nm_color_tl ++ ";\n    border-top-color:" ++
  nm_color_al ++ ";\n\x7d\n.stattxt\n\x7b\n    color:" ++ theme_foreground ++
  ";\n\x7d\n.nobold\n\x7b\n    color:" ++ nm_color_tl ++ ";\n\x7d\n"

def nm_css_top : String :=
  "\nhtml, #header\n\x7b\n    " ++ nm_css_custom_colors_initial ++
  ";\n\x7d\nbody, #header\n\x7b\n    " ++ nm_css_custom_colors_initial ++
  ";\n    border-bottom-color:" ++ nm_color_al ++
  ";\n\x7d\n.hitem\n\x7b\n    color:" ++ nm_color_tl ++ ";\n\x7d\n"

def nm_css_ilatex : String :=
  ".latex\n\x7b\n    filter:invert(1);\n    -webkit-filter:invert(1)\n\x7d\n"

def nm_css_iimage : String :=
  "img\n\x7b\n    filter:invert(1);\n    -webkit-filter:invert(1)\n\x7d\n"

def nm_css_body : String :=
  "\n.card input\n\x7b\n    background-color:red!important;" ++
  "\n    border-color:blue!important;\n    color:#eee!important\n\x7d" ++
  "\n.card label\n\x7b\n    margin-top: 5px;\n    color: " ++ theme_color7 ++
  ";\n\x7d\n.typeGood\n\x7b\n    color:black;\n    background:#30dc16\n\x7d" ++
  "\n.typeBad\n\x7b\n    color:black;\n    background:#c43c35\n\x7d" ++
  "\n.typeMissed\n\x7b\n    color:black;\n    background:#ccc\n\x7d" ++
  "\n#answer\n\x7b\n    height:0;\n\x7d" ++
  "\nimg#star\n\x7b\n    -webkit-filter:invert(0%)!important\n\x7d" ++
  "\n.cloze\n\x7b\n    color:#5566ee!important\n\x7d" ++
  "\na\n\x7b\n    color:#0099CC\n\x7d\n"

def nm_css_decks : String :=
  nm_css_buttons ++ nm_css_color_replacer ++
  "\na\n\x7b\n    color:" ++ nm_color_tl ++ ";\n\x7d" ++
  "\n.current\n\x7b\n    background-color:#e7e7e7;\n\x7d" ++
  "\na.deck, .collapse\n\x7b\n    color: #000;\n\x7d" ++
  "\ntr.deck td\n\x7b\n    height:35px;\n\x7d" ++
  "\ntr.deck button img\n\x7b\n    -webkit-filter:invert(20%)\n\x7d" ++
  "\ntr.deck font[color=\"#007700\"]\n\x7b\n    color:#30dc16\n\x7d" ++
  "\ntr.deck font[color=\"#000099\"]\n\x7b\n    color:#00BBFF\n\x7d" ++
  "\n.filtered\n\x7b\n    color:#00AAEE!important\n\x7d\n"

def nm_css_other_bottoms : String :=
  nm_css_buttons ++
  "\n#header\n\x7b\n    background: " ++ theme_color1 ++ ";\n    color:" ++
  theme_foreground ++ "!important;\n    border-top-color:" ++ nm_color_al ++
  ";\n    height:40px\n\x7d\n"

/-- Python `nm_css_overview()` (a function in the source). -/
def nm_css_overview : String :=
  nm_css_buttons ++ "\n    .descfont\n    \x7b\n    \x7d\n    "

def nm_css_menu : String :=
  "\nQMenuBar,QMenu\n\x7b\n    background-color:" ++ theme_color1 ++
  "!important;\n    color:" ++ theme_foreground ++ "!important;\n\x7d" ++
  "\nQMenuBar::item\n\x7b\n    background-color:transparent\n\x7d" ++
  "\nQMenuBar::item:selected\n\x7b\n    background-color:" ++ nm_color_al ++
  "!important;\n    color:" ++ nm_color_tl ++ "!important;\n\x7d" ++
  "\nQMenu\n\x7b\n    border:1px solid " ++ nm_color_al ++ ";\n\x7d" ++
  "\nQMenu::item::selected\n\x7b\n    background-color:" ++ nm_color_al ++
  ";\n    color:" ++ nm_color_tl ++ ";\n\x7d" ++
  "\nQMenu::item\n\x7b\n    padding:3px 25px 3px 25px;" ++
  "\n    border:1px solid transparent\n\x7d\n"

/-- Python `nm_css_scrollbar()` (a function in the source; constant, built from
theme colours only). -/
def nm_css_scrollbar : String :=
  "\n        QScrollBar:vertical \x7b\n            width: 10px;" ++
  "\n            background: " ++ theme_color7 ++ ";\n        \x7d" ++
  "\n        QScrollBar::handle:vertical \x7b\n            background: " ++
  theme_color4 ++ ";\n            min-height: 3px;" ++
  "\n            border-radius: 3px;\n            margin: 2px 2px 2px 2px;\n        \x7d" ++
  "\n        QScrollBar::add-line:vertical\n        \x7b\n            height: 0px;" ++
  "\n            subcontrol-position: bottom;\n            subcontrol-origin: margin;\n        \x7d" ++
  "\n        QScrollBar::sub-line:vertical\n        \x7b\n            height: 0px;" ++
  "\n            subcontrol-position: top;\n            subcontrol-origin: margin;\n        \x7d" ++
  "\n        QScrollBar::up-arrow:vertical, QScrollBar::down-arrow:vertical \n        \x7b" ++
  "\n            width: 5px;\n            height: 5px;\n            background: " ++
  theme_color1 ++ ";\n        \x7d" ++
  "\n        QScrollBar::add-page:vertical, QScrollBar::sub-page:vertical\n        \x7b" ++
  "\n            background: none;\n        \x7d" ++
  "\n        QScrollBar:horizontal \x7b\n            height: 10px;" ++
  "\n            background: " ++ theme_color7 ++ ";\n        \x7d" ++
  "\n        QScrollBar::handle:horizontal \x7b\n            background: " ++
  theme_color4 ++ ";\n            min-width: 3px;" ++
  "\n            border-radius: 3px;\n            margin: 2px 2px 2px 2px;\n        \x7d" ++
  "\n        QScrollBar::add-line:horizontal\n        \x7b\n            width: 0px;" ++
  "\n            subcontrol-position: bottom;\n            subcontrol-origin: margin;\n        \x7d" ++
  "\n        QScrollBar::sub-line:horizontal\n        \x7b\n            width: 0px;" ++
  "\n            subcontrol-position: top;\n            subcontrol-origin: margin;\n        \x7d" ++
  "\n        QScrollBar::up-arrow:horizontal, QScrollBar::down-arrow:horizontal \n        \x7b" ++
  "\n            width: 5px;\n            height: 5px;\n            background: " ++
  theme_color1 ++ ";\n        \x7d" ++
  "\n        QScrollBar::add-page:horizontal, QScrollBar::sub-page:horizontal\n        \x7b" ++
  "\n            background: none;\n        \x7d" ++
  "\n        ::-webkit-scrollbar\n        \x7b\n            height: 10px;" ++
  "\n            width: 10px;\n        \x7d" ++
  "\n        /* background */\n        ::-webkit-scrollbar-track\n        \x7b" ++
  "\n            background:" ++ theme_color7 ++ ";\n        \x7d" ++
  "\n        /* handle */\n        ::-webkit-scrollbar-thumb\n        \x7b" ++
  "\n            min-height: 3px;\n            min-width: 3px;" ++
  "\n            border-radius: 3px;\n            border: 2px solid " ++
  theme_color7 ++ ";\n            background:" ++ theme_color4 ++ ";\n        \x7d\n        "

def NM_ERROR_NO_PROFILE : String :=
  "Switching night mode failed: The profile is not loaded yet.\n" ++
  "Probably it\x27s a bug of Anki or you tried to switch mode to quickly."

/-- Python `NM_ERROR_SWITCH` carries the formatted traceback in the source; the
traceback text itself is host-dependent and not modelled. -/
def NM_ERROR_SWITCH : String :=
  "Switching night mode failed: Something went really really wrong.\n" ++
  "Contact add-on author to get help.\n\n" ++
  "Please provide following traceback when reporting the issue:\n"

/-- Values captured once at add-on import time: the Anki version branch
and the host's original style attributes (`nm_default_css_*`,
`DEFLAULT_COLOUR_*`). -/
structure Env where
  is21 : Bool
  nm_default_css_menu : String
  nm_default_css_top : String
  nm_default_css_body : String
  nm_default_reviewer_html : String
  nm_default_css_bottom : String
  nm_default_css_decks : String
  nm_default_css_decks_bottom : String
  nm_default_css_overview : String
  nm_default_css_overview_bottom : String
  nm_default_css_waiting_screen : String
  DEFLAULT_COLOUR_MARKED : String
  DEFLAULT_COLOUR_SUSPENDED : String
deriving DecidableEq, Repr

/-- On Anki 2.1 the source sets `nm_default_css_body = ''` instead of
capturing it from the host (lines 111-115). -/
def Env.wf (env : Env) : Prop :=
  env.is21 = true → env.nm_default_css_body = ""

/-- The host style attributes the add-on mutates: main-window stylesheet,
toolbar CSS, reviewer body CSS (2.0) / reviewer HTML (2.1), reviewer
bottom CSS, deck browser, overview, shared CSS and the browser
marked/suspended colours. -/
structure Styles where
  mw_styleSheet : String
  toolbar_css : String
  reviewer_css : String
  reviewer_revHtml : String
  reviewer_bottomCSS : String
  deckBrowser_css : String
  deckBrowser_bottom_css : String
  overview_css : String
  overview_bottom_css : String
  sharedCSS : String
  COLOUR_MARKED : String
  COLOUR_SUSPENDED : String
deriving DecidableEq, Repr

/-- The latex generation command tables (`anki.latex.pngCommands` /
`svgCommands` on 2.1, `latexCmds` on 2.0), each a list of command
argument lists. -/
structure LatexCmds where
  pngCommands : List (List String)
  svgCommands : List (List String)
  latexCmds : List (List String)
deriving DecidableEq, Repr

/-- The transparent-background dvipng command written by
`nm_make_latex_transparent`. -/
def nm_transparent_dvipng : List String :=
  ["dvipng", "-D", "200", "-T", "tight", "-bg", "Transparent",
   "-z", "9", "tmp.dvi", "-o", "tmp.png"]

/-- Python `nm_make_latex_transparent()`: overwrite entry 1 of each command
table with the transparent dvipng command. -/
def nm_make_latex_transparent (env : Env) (l : LatexCmds) : LatexCmds :=
  if env.is21 then
    { l with pngCommands := l.pngCommands.set 1 nm_transparent_dvipng,
             svgCommands := l.svgCommands.set 1 nm_transparent_dvipng }
  else
    { l with latexCmds := l.latexCmds.set 1 nm_transparent_dvipng }

/-- The add-on's mutable module globals. The five `nm_menu_*` fields model
the `QAction` objects: `none` when the action object was never created
(the module-level `None`), `some c` for an action whose checked state is
`c`. -/
structure GState where
  nm_state_on : PValue
  nm_enable_in_dialogs : PValue
  nm_invert_image : PValue
  nm_invert_latex : PValue
  nm_transparent_latex : PValue
  nm_color_bl : PValue
  nm_color_td : PValue
  nm_profile_loaded : Bool
  nm_css_custom_colors : String
  nm_menu_switch : Option Bool
  nm_menu_iimage : Option Bool
  nm_menu_ilatex : Option Bool
  nm_menu_endial : Option Bool
  nm_menu_tlatex : Option Bool
  styles : Styles
  latex : LatexCmds
deriving DecidableEq, Repr

/-- Result of a stateful call: the state as mutated up to the return (or
up to the exception: Python keeps global assignments made before a raise),
`ok = false` when the call returned `False` or an uncaught exception
aborted it, plus the warnings shown via `showWarning`. -/
structure PyResult where
  st : GState
  ok : Bool
  warnings : List String
deriving DecidableEq, Repr

/-- Python `nm_tlatex()`: flip the flag, and only when the new value is truthy
overwrite the latex commands. -/
def nm_tlatex (env : Env) (st : GState) : GState :=
  let st := { st with nm_transparent_latex := .b (!truthy st.nm_transparent_latex) }
  if truthy st.nm_transparent_latex then
    { st with latex := nm_make_latex_transparent env st.latex }
  else
    st

/-- Python `nm_save()`: write the seven settings into the profile dict, in
source order. -/
def nm_save (st : GState) (p : Profile) : Profile :=
  dict_set (dict_set (dict_set (dict_set (dict_set (dict_set (dict_set p
    "nm_state_on" st.nm_state_on)
    "nm_enable_in_dialogs" st.nm_enable_in_dialogs)
    "nm_invert_image" st.nm_invert_image)
    "nm_invert_latex" st.nm_invert_latex)
    "nm_transparent_latex" st.nm_transparent_latex)
    "nm_color_bl" st.nm_color_bl)
    "nm_color_td" st.nm_color_td

/-- Python `nm_append_to_styles()`. The invert flags are read from the globals
in the source; here they are passed as the already-computed truthiness of
the caller's globals. Screen reloads and `toolbar.draw()` are UI effects
with no styled state and are not modelled. -/
def nm_append_to_styles (env : Env) (inv_img inv_lat : Bool) (s : Styles)
    (bottom body top decks other_bottoms overview menu waiting_screen : String) :
    Styles :=
  let body := body ++ (if inv_img then nm_css_iimage else "") ++
                      (if inv_lat then nm_css_ilatex else "")
  let s := { s with mw_styleSheet := env.nm_default_css_menu ++ menu,
                    toolbar_css := env.nm_default_css_top ++ top,
                    reviewer_bottomCSS := env.nm_default_css_bottom ++ bottom }
  let s :=
    if env.is21 then
      { s with reviewer_revHtml :=
          env.nm_default_reviewer_html ++ "<style>" ++ body ++ "</style>" }
    else
      { s with reviewer_css :=
          env.nm_default_css_body ++ body ++ nm_css_scrollbar }
  { s with deckBrowser_css := env.nm_default_css_decks ++ decks,
           deckBrowser_bottom_css := env.nm_default_css_decks_bottom ++ other_bottoms,
           overview_css := env.nm_default_css_overview ++ overview,
           overview_bottom_css := env.nm_default_css_overview_bottom ++ other_bottoms,
           sharedCSS := env.nm_default_css_waiting_screen ++ waiting_screen }

/-- Python `nm_on()`.  The `try` block catches any exception: a `TypeError` from
concatenating a non-string `nm_color_td` (the `pstr` match) or an
`AttributeError` from `nm_menu_switch` being `None` yields `ok = false`
with the mutations already made kept in place. -/
def nm_on (env : Env) (st : GState) : PyResult :=
  if !st.nm_profile_loaded then ⟨st, false, [NM_ERROR_NO_PROFILE]⟩
  else
    let st := { st with
      nm_state_on := .b true,
      styles := { st.styles with COLOUR_MARKED := "#D9B2E9",
                                 COLOUR_SUSPENDED := "#FFFFB2" } }
    match pstr st.nm_color_td with
    | none => ⟨st, false, [NM_ERROR_SWITCH]⟩
    | some td =>
      let s2 :=
        nm_append_to_styles env (truthy st.nm_invert_image)
          (truthy st.nm_invert_latex) st.styles
          nm_css_bottom
          (nm_css_body ++ nm_card_color_css td ++ nm_css_custom_color_map)
          nm_css_top
          (nm_css_decks ++ nm_body_color_css td)
          nm_css_other_bottoms
          (nm_css_overview ++ nm_body_color_css td)
          nm_css_menu
          (nm_css_buttons ++ nm_body_color_css td)
      let st := { st with styles := s2 }
      match st.nm_menu_switch with
      | none => ⟨st, false, [NM_ERROR_SWITCH]⟩
      | some _ => ⟨{ st with nm_menu_switch := some true }, true, []⟩

/-- Python `nm_off()`: restore the captured defaults (every
`nm_append_to_styles` argument defaults to the empty string). -/
def nm_off (env : Env) (st : GState) : PyResult :=
  if !st.nm_profile_loaded then ⟨st, false, [NM_ERROR_NO_PROFILE]⟩
  else
    let st := { st with
      nm_state_on := .b false,
      styles := { st.styles with COLOUR_MARKED := env.DEFLAULT_COLOUR_MARKED,
                                 COLOUR_SUSPENDED := env.DEFLAULT_COLOUR_SUSPENDED } }
    let s2 :=
      nm_append_to_styles env (truthy st.nm_invert_image)
        (truthy st.nm_invert_latex) st.styles "" "" "" "" "" "" "" ""
    let st := { st with styles := s2 }
    match st.nm_menu_switch with
    | none => ⟨st, false, [NM_ERROR_SWITCH]⟩
    | some _ => ⟨{ st with nm_menu_switch := some false }, true, []⟩

/-- Lines 293-295 of `nm_load`: `if nm_transparent_latex:` set the
checkbox (an `AttributeError` if the action is `None`) and overwrite the
latex commands. -/
def nm_load_menu_tlatex (env : Env) (st : GState) (ws : List String) : PyResult :=
  if truthy st.nm_transparent_latex then
    match st.nm_menu_tlatex with
    | none => ⟨st, false, ws⟩
    | some _ => ⟨{ st with nm_menu_tlatex := some true,
                           latex := nm_make_latex_transparent env st.latex }, true, ws⟩
  else ⟨st, true, ws⟩

/-- Lines 290-291 of `nm_load`: `if nm_enable_in_dialogs:` set the
checkbox. -/
def nm_load_menu_endial (env : Env) (st : GState) (ws : List String) : PyResult :=
  if truthy st.nm_enable_in_dialogs then
    match st.nm_menu_endial with
    | none => ⟨st, false, ws⟩
    | some _ => nm_load_menu_tlatex env { st with nm_menu_endial := some true } ws
  else nm_load_menu_tlatex env st ws

/-- Lines 287-288 of `nm_load`: `if nm_invert_latex:` set the checkbox. -/
def nm_load_menu_ilatex (env : Env) (st : GState) (ws : List String) : PyResult :=
  if truthy st.nm_invert_latex then
    match st.nm_menu_ilatex with
    | none => ⟨st, false, ws⟩
    | some _ => nm_load_menu_endial env { st with nm_menu_ilatex := some true } ws
  else nm_load_menu_endial env st ws

/-- Lines 284-285 of `nm_load`: `if nm_invert_image:` set the checkbox. -/
def nm_load_menu_iimage (env : Env) (st : GState) (ws : List String) : PyResult :=
  if truthy st.nm_invert_image then
    match st.nm_menu_iimage with
    | none => ⟨st, false, ws⟩
    | some _ => nm_load_menu_ilatex env { st with nm_menu_iimage := some true } ws
  else nm_load_menu_ilatex env st ws

/-- Python `nm_load` after the seven profile reads: refresh the custom colours
string (a `TypeError` if either colour is not a string), mark the profile
loaded, call `nm_on` when the loaded state flag is truthy (its exceptions
are caught inside `nm_on`), then set the menu checkboxes. -/
def nm_load_after (env : Env) (st : GState) : PyResult :=
  match pstr st.nm_color_td with
  | none => ⟨st, false, []⟩
  | some td =>
    match pstr st.nm_color_bl with
    | none => ⟨st, false, []⟩
    | some bl =>
      let st := { st with
        nm_css_custom_colors := nm_make_css_custom_colors_string td bl }
      let st := { st with nm_profile_loaded := true }
      let r := if truthy st.nm_state_on then nm_on env st else ⟨st, true, []⟩
      nm_load_menu_iimage env r.st r.warnings

/-- Python `nm_load()`: read the seven settings from the profile with their
defaults (lines 269-275), then run the rest of the procedure. -/
def nm_load (env : Env) (p : Profile) (st : GState) : PyResult :=
  let st := { st with
    nm_state_on := pgetD p "nm_state_on" (.b true),
    nm_invert_image := pgetD p "nm_invert_image" (.b false),
    nm_invert_latex := pgetD p "nm_invert_latex" (.b false),
    nm_color_bl := pgetD p "nm_color_bl" (.s theme_color1),
    nm_color_td := pgetD p "nm_color_td" (.s theme_color7),
    nm_enable_in_dialogs := pgetD p "nm_enable_in_dialogs" (.b true),
    nm_transparent_latex := pgetD p "nm_transparent_latex" (.b false) }
  nm_load_after env st

/-- Python `nm_setup_menu()`: only the switch and enable-in-dialogs actions are
created (checkable, initially unchecked); the invert-images, invert-latex
and transparent-latex action creations are commented out in the source,
so those globals keep their prior value (`None` after module init). -/
def nm_setup_menu (st : GState) : GState :=
  { st with nm_menu_switch := some false, nm_menu_endial := some false }

/-- The module-level initial state (lines 86-127): flags at their
declaration values, colours at the theme values, menu actions `None`,
style attributes as captured from the host, latex commands as found in
`anki.latex`. -/
def nm_initial_state (env : Env) (latex0 : LatexCmds) : GState :=
  { nm_state_on := .b false,
    nm_enable_in_dialogs := .b true,
    nm_invert_image := .b false,
    nm_invert_latex := .b false,
    nm_transparent_latex := .b false,
    nm_color_bl := .s theme_color1,
    nm_color_td := .s theme_foreground,
    nm_profile_loaded := false,
    nm_css_custom_colors := nm_css_custom_colors_initial,
    nm_menu_switch := none,
    nm_menu_iimage := none,
    nm_menu_ilatex := none,
    nm_menu_endial := none,
    nm_menu_tlatex := none,
    styles := { mw_styleSheet := env.nm_default_css_menu,
                toolbar_css := env.nm_default_css_top,
                reviewer_css := env.nm_default_css_body,
                reviewer_revHtml := env.nm_default_reviewer_html,
                reviewer_bottomCSS := env.nm_default_css_bottom,
                deckBrowser_css := env.nm_default_css_decks,
                deckBrowser_bottom_css := env.nm_default_css_decks_bottom,
                overview_css := env.nm_default_css_overview,
                overview_bottom_css := env.nm_default_css_overview_bottom,
                sharedCSS := env.nm_default_css_waiting_screen,
                COLOUR_MARKED := env.DEFLAULT_COLOUR_MARKED,
                COLOUR_SUSPENDED := env.DEFLAULT_COLOUR_SUSPENDED },
    latex := latex0 }

end NightModeV1

namespace NightModeV2

/-!
Embedding of the second version (`night_mode/night_mode.py`). The sibling
modules (`stylers.py`, `config.py`, `styles.py`, ...) are not under
`src/`; the parts of them this file's code calls into are modelled from
the spec where noted.
-/

/-- Modelled from the spec: the attribute state of one styler ("a unit of
CSS/markup injection targeting one host screen or widget class", missing
`stylers.py`): either still the host's original attributes or the
night-mode replacement. -/
inductive AttrMode
  | original
  | replaced
deriving DecidableEq, Repr

/-- Modelled from the spec: a styler from the missing `stylers.py`,
identified by its `name` (the name `disabled_stylers` entries refer to). -/
structure Styler where
  name : String
deriving DecidableEq, Repr

/-- Modelled from the spec: `styler.replace_attributes()` swaps in the
night-mode attributes of that one styler, leaving other stylers alone. -/
def replace_attributes (m : String → AttrMode) (s : Styler) : String → AttrMode :=
  fun k => if k = s.name then .replaced else m k

/-- Modelled from the spec: `styler.restore_attributes()` puts that one
styler's original attributes back. -/
def restore_attributes (m : String → AttrMode) (s : Styler) : String → AttrMode :=
  fun k => if k = s.name then .original else m k

/-- Python `StylingManager`: the instantiated stylers (`Styler.members`) and the
`disabled_stylers` configuration value. -/
structure StylingManager where
  stylers : List Styler
  disabled_stylers : List String

/-- Python `StylingManager.active_stylers`: the stylers whose name is not in the
`disabled_stylers` configuration. -/
def StylingManager.active_stylers (sm : StylingManager) : List Styler :=
  sm.stylers.filter (fun s => s.name ∉ sm.disabled_stylers)

/-- Python `StylingManager.replace`: `replace_attributes` on every active
styler, in order. -/
def StylingManager.replace (sm : StylingManager) (m : String → AttrMode) :
    String → AttrMode :=
  sm.active_stylers.foldl replace_attributes m

/-- Python `StylingManager.restore`: `restore_attributes` on every styler,
disabled or not. -/
def StylingManager.restore (sm : StylingManager) (m : String → AttrMode) :
    String → AttrMode :=
  sm.stylers.foldl restore_attributes m

/-- The JavaScript injected when night mode is on. -/
def js_night_on : String :=
  "\n            function add_night_mode_class()\x7b" ++
  "\n                current_classes = document.body.className;" ++
  "\n                if(current_classes.indexOf(\"night_mode\") == -1)" ++
  "\n                \x7b" ++
  "\n                    document.body.className += \" night_mode\";" ++
  "\n                \x7d" ++
  "\n            \x7d" ++
  "\n            // explanation of setTimeout use:" ++
  "\n            // callback defined in _showQuestion of reviewer.js would otherwise overwrite" ++
  "\n            // the newly set body class; in order to prevent that the function execution" ++
  "\n            // is being placed on the end of execution queue (hence time = 0)" ++
  "\n            setTimeout(add_night_mode_class, 0)\n            "

/-- The JavaScript injected when night mode is off. -/
def js_night_off : String :=
  "\n            function remove_night_mode_class()\x7b" ++
  "\n                current_classes = document.body.className;" ++
  "\n                if(current_classes.indexOf(\"night_mode\") != -1)" ++
  "\n                \x7b" ++
  "\n                    document.body.className = current_classes.replace(\"night_mode\",\"\");" ++
  "\n                \x7d" ++
  "\n            \x7d" ++
  "\n            setTimeout(remove_night_mode_class, 0)\n            "

/-- Python `NightMode.night_class_injection(html, card, context)`. The
night-mode state flag `self.config.state_on.value` is passed as a `Bool`
(the `Config` class lives in the missing `config.py`); `card` and
`context` are host objects the method never looks at, so they are kept
fully polymorphic. -/
def night_class_injection {α β : Type} (state_on : Bool) (html : String)
    (card : α) (context : β) : String :=
  let javascript := if state_on then js_night_on else js_night_off
  "<script>" ++ javascript ++ "</script>" ++ html

end NightModeV2

namespace NightModeV1

/-! Concrete fixtures used by witnesses and counterexamples. -/

/-- A concrete Anki 2.1 host environment with distinguishable captured
styles. -/
def env0 : Env :=
  { is21 := true,
    nm_default_css_menu := "MENU0",
    nm_default_css_top := "TOP0",
    nm_default_css_body := "",
    nm_default_reviewer_html := "REVHTML0",
    nm_default_css_bottom := "BOTTOM0",
    nm_default_css_decks := "DECKS0",
    nm_default_css_decks_bottom := "DECKSBOT0",
    nm_default_css_overview := "OVERVIEW0",
    nm_default_css_overview_bottom := "OVERBOT0",
    nm_default_css_waiting_screen := "SHARED0",
    DEFLAULT_COLOUR_MARKED := "#ccc",
    DEFLAULT_COLOUR_SUSPENDED := "#FFFFB2aa" }

/-- A concrete Anki 2.0 host environment: the same captured styles, but
with the reviewer body CSS captured from the host (nonempty) and the 2.0
branch taken. -/
def env2 : Env :=
  { env0 with is21 := false, nm_default_css_body := "REVBODY0" }

/-- Concrete latex command tables as found in `anki.latex`. -/
def latex0 : LatexCmds :=
  { pngCommands := [["latex", "-interaction=nonstopmode", "tmp.tex"],
                    ["dvipng", "-D", "200", "-T", "tight", "tmp.dvi", "-o", "tmp.png"]],
    svgCommands := [["latex", "-interaction=nonstopmode", "tmp.tex"],
                    ["dvisvgm", "--no-fonts", "-Z", "2", "tmp.dvi", "-o", "tmp.svg"]],
    latexCmds := [["latex", "-interaction=nonstopmode", "tmp.tex"],
                  ["dvipng", "-D", "200", "-T", "tight", "tmp.dvi", "-o", "tmp.png"]] }

/-- The state right after module import and `nm_onload()`/`nm_setup_menu()`:
fresh menu, profile not yet loaded. -/
def st0 : GState := nm_setup_menu (nm_initial_state env0 latex0)

/-- Same state with the profile marked loaded (as after a successful
`nm_load`), used when a witness needs to get past the profile guard. -/
def st1 : GState := { st0 with nm_profile_loaded := true }

/-- A profile with the invert-images flag saved as `True` (as written by
`nm_save` in a session where `nm_iimage()` had toggled it). -/
def c5profile : Profile := [("nm_invert_image", PValue.b true)]

/-- A profile with some of the seven keys present and the rest absent. -/
def c3profile : Profile :=
  [("nm_invert_image", PValue.b true), ("nm_color_bl", PValue.s "#123456")]

/-- The exact key set written by `nm_save` and read by `nm_load`. -/
def nm_setting_keys : List String :=
  ["nm_state_on", "nm_enable_in_dialogs", "nm_invert_image",
   "nm_invert_latex", "nm_transparent_latex", "nm_color_bl", "nm_color_td"]

end NightModeV1

namespace NightModeV2

/-- A concrete manager with one disabled styler. -/
def sm0 : StylingManager :=
  { stylers := [⟨"reviewer"⟩, ⟨"deck_browser"⟩],
    disabled_stylers := ["deck_browser"] }

/-- A concrete attribute state: everything still original. -/
def m0 : String → AttrMode := fun _ => .original

/-- A concrete attribute state: everything already replaced. -/
def m1 : String → AttrMode := fun _ => .replaced

end NightModeV2

/-! ## Theorems -/

namespace NightModeV1

theorem dict_get_set_self (p : Profile) (k : String) (v : PValue) :
    dict_get (dict_set p k v) k = some v := by
  induction p with
  | nil => simp [dict_set, dict_get]
  | cons hd rest ih =>
      by_cases h : hd.1 = k
      · simp [dict_set, dict_get, h]
      · simp [dict_set, dict_get, h, ih]

theorem dict_get_set_ne (p : Profile) (k k' : String) (v : PValue)
    (h : k ≠ k') : dict_get (dict_set p k v) k' = dict_get p k' := by
  induction p with
  | nil => simp [dict_set, dict_get, h]
  | cons hd rest ih =>
      by_cases hk : hd.1 = k
      · simp [dict_set, dict_get, hk, h]
      · by_cases hk' : hd.1 = k'
        · simp [dict_set, dict_get, hk, hk', Ne.symm h]
        · simp [dict_set, dict_get, hk, hk', ih]

theorem pgetD_set_self (p : Profile) (k : String) (v d : PValue) :
    pgetD (dict_set p k v) k d = v := by
  simp [pgetD, dict_get_set_self]

theorem pgetD_set_ne (p : Profile) (k k' : String) (v d : PValue)
    (h : k ≠ k') : pgetD (dict_set p k v) k' d = pgetD p k' d := by
  simp [pgetD, dict_get_set_ne p k k' v h]

theorem truthy_b (v : Bool) : truthy (.b v) = v := rfl

theorem truthy_s (v : String) : truthy (.s v) = decide (v ≠ "") := rfl

theorem pstr_b (v : Bool) : pstr (.b v) = none := rfl

theorem pstr_s (v : String) : pstr (.s v) = some v := rfl

/-- C8: with the profile not yet loaded, `nm_on` and `nm_off` show the
no-profile warning and return `False`, leaving the whole state — the
`nm_state_on` flag, every style attribute and the browser
marked/suspended colours — exactly as it was. -/
theorem on_off_guard_no_profile (env : Env) (st : GState)
    (h : st.nm_profile_loaded = false) :
    nm_on env st = ⟨st, false, [NM_ERROR_NO_PROFILE]⟩ ∧
    nm_off env st = ⟨st, false, [NM_ERROR_NO_PROFILE]⟩ := by
  constructor
  · simp [nm_on, h]
  · simp [nm_off, h]

/-- Witness for C8 at the freshly imported state. -/
theorem on_off_guard_no_profile_witness :
    nm_on env0 st0 = ⟨st0, false, [NM_ERROR_NO_PROFILE]⟩ ∧
    nm_off env0 st0 = ⟨st0, false, [NM_ERROR_NO_PROFILE]⟩ :=
  on_off_guard_no_profile env0 st0 rfl

/-- C10: `nm_tlatex` always flips the transparent-latex flag; it
overwrites the latex commands only when the flag becomes truthy, and a
call that turns the flag off leaves the previously overwritten commands
in place (the toggle-on-then-off composition keeps the transparent
commands instead of restoring the originals). -/
theorem tlatex_flip_commands (env : Env) (st : GState) :
    (nm_tlatex env st).nm_transparent_latex
      = .b (!truthy st.nm_transparent_latex) ∧
    (truthy st.nm_transparent_latex = true →
      (nm_tlatex env st).latex = st.latex) ∧
    (truthy st.nm_transparent_latex = false →
      (nm_tlatex env st).latex = nm_make_latex_transparent env st.latex) ∧
    (truthy st.nm_transparent_latex = false →
      (nm_tlatex env (nm_tlatex env st)).latex
        = nm_make_latex_transparent env st.latex) := by
  cases h : truthy st.nm_transparent_latex <;>
    simp [nm_tlatex, truthy_b, h]

/-- Witness for C10 starting with the flag off. -/
theorem tlatex_flip_commands_witness :
    (nm_tlatex env0 st0).nm_transparent_latex
      = .b (!truthy st0.nm_transparent_latex) ∧
    (nm_tlatex env0 st0).latex = nm_make_latex_transparent env0 st0.latex ∧
    (nm_tlatex env0 (nm_tlatex env0 st0)).latex
      = nm_make_latex_transparent env0 st0.latex := by
  have h := tlatex_flip_commands env0 st0
  exact ⟨h.1, h.2.2.1 rfl, h.2.2.2 rfl⟩

end NightModeV1

namespace NightModeV2

/-- C9: `night_class_injection` returns a single
`<script>...</script>` prefix followed by the original html as an exact,
unchanged suffix, and the prefix depends only on the night-mode state
flag — not on the html, the card, or the context. -/
theorem night_class_injection_structure {α β γ δ : Type} (s : Bool)
    (html : String) (card : α) (context : β) (card2 : γ) (context2 : δ) :
    night_class_injection s html card context
      = night_class_injection s "" card2 context2 ++ html ∧
    ∃ js, night_class_injection s html card context
      = "<script>" ++ js ++ "</script>" ++ html := by
  refine ⟨?_, if s then js_night_on else js_night_off, rfl⟩
  simp [night_class_injection, String.append_assoc, String.append_empty]

end NightModeV2

namespace NightModeV2

theorem foldl_replace_ne (l : List Styler) (m : String → AttrMode)
    (n : String) (h : ∀ s ∈ l, s.name ≠ n) :
    (l.foldl replace_attributes m) n = m n := by
  induction l generalizing m with
  | nil => rfl
  | cons a l ih =>
      have ha : a.name ≠ n := h a (by simp)
      have hl : ∀ s ∈ l, s.name ≠ n := fun s hs => h s (by simp [hs])
      simp only [List.foldl_cons]
      rw [ih (replace_attributes m a) hl]
      simp [replace_attributes, Ne.symm ha]

theorem foldl_replace_stays (l : List Styler) (m : String → AttrMode)
    (n : String) (h : m n = .replaced) :
    (l.foldl replace_attributes m) n = .replaced := by
  induction l generalizing m with
  | nil => exact h
  | cons a l ih =>
      simp only [List.foldl_cons]
      refine ih (replace_attributes m a) ?_
      by_cases hn : n = a.name <;> simp [replace_attributes, hn, h]

theorem foldl_replace_member (l : List Styler) (m : String → AttrMode)
    (n : String) (h : ∃ s ∈ l, s.name = n) :
    (l.foldl replace_attributes m) n = .replaced := by
  induction l generalizing m with
  | nil => simp at h
  | cons a l ih =>
      simp only [List.foldl_cons]
      rcases h with ⟨s, hs, hname⟩
      rcases List.mem_cons.mp hs with rfl | hmem
      · exact foldl_replace_stays l _ n (by simp [replace_attributes, hname])
      · exact ih _ ⟨s, hmem, hname⟩

theorem foldl_restore_stays (l : List Styler) (m : String → AttrMode)
    (n : String) (h : m n = .original) :
    (l.foldl restore_attributes m) n = .original := by
  induction l generalizing m with
  | nil => exact h
  | cons a l ih =>
      simp only [List.foldl_cons]
      refine ih (restore_attributes m a) ?_
      by_cases hn : n = a.name <;> simp [restore_attributes, hn, h]

theorem foldl_restore_member (l : List Styler) (m : String → AttrMode)
    (n : String) (h : ∃ s ∈ l, s.name = n) :
    (l.foldl restore_attributes m) n = .original := by
  induction l generalizing m with
  | nil => simp at h
  | cons a l ih =>
      simp only [List.foldl_cons]
      rcases h with ⟨s, hs, hname⟩
      rcases List.mem_cons.mp hs with rfl | hmem
      · exact foldl_restore_stays l _ n (by simp [restore_attributes, hname])
      · exact ih _ ⟨s, hmem, hname⟩

/-- C7: `StylingManager.replace` replaces the attributes only of stylers
whose name is not in `disabled_stylers` — the attribute state of every
disabled styler is left exactly as it was — while
`StylingManager.restore` restores the attributes of every styler,
disabled or not. -/
theorem styling_manager_replace_restore (sm : StylingManager)
    (m : String → AttrMode) (n : String) :
    (n ∈ sm.disabled_stylers → sm.replace m n = m n) ∧
    ((∃ s ∈ sm.stylers, s.name = n) → n ∉ sm.disabled_stylers →
      sm.replace m n = .replaced) ∧
    ((∃ s ∈ sm.stylers, s.name = n) → sm.restore m n = .original) := by
  refine ⟨?_, ?_, ?_⟩
  · intro hdis
    refine foldl_replace_ne _ m n ?_
    intro s hs
    have := List.mem_filter.mp hs
    intro hname
    exact (by simpa [hname] using this.2 : n ∉ sm.disabled_stylers) hdis
  · rintro ⟨s, hs, hname⟩ hnot
    refine foldl_replace_member _ m n ⟨s, ?_, hname⟩
    refine List.mem_filter.mpr ⟨hs, ?_⟩
    simpa [hname] using hnot
  · intro h
    exact foldl_restore_member _ m n h

/-- Witness for C7 on a concrete manager: the disabled styler keeps its
replaced attributes under `replace`, the active one is replaced, and
`restore` restores even the disabled one. -/
theorem styling_manager_replace_restore_witness :
    sm0.replace m1 "deck_browser" = m1 "deck_browser" ∧
    sm0.replace m0 "reviewer" = .replaced ∧
    sm0.restore m1 "deck_browser" = .original := by
  refine ⟨(styling_manager_replace_restore sm0 m1 "deck_browser").1 (by decide),
          (styling_manager_replace_restore sm0 m0 "reviewer").2.1 (by decide) (by decide),
          (styling_manager_replace_restore sm0 m1 "deck_browser").2.2 (by decide)⟩

end NightModeV2

namespace NightModeV1

theorem dict_get_set (p : Profile) (k k' : String) (v : PValue) :
    dict_get (dict_set p k v) k' = if k = k' then some v else dict_get p k' := by
  by_cases h : k = k'
  · subst h; simp [dict_get_set_self]
  · simp [h, dict_get_set_ne p k k' v h]

theorem pgetD_set (p : Profile) (k k' : String) (v d : PValue) :
    pgetD (dict_set p k v) k' d = if k = k' then v else pgetD p k' d := by
  by_cases h : k = k'
  · subst h; simp [pgetD_set_self]
  · simp [h, pgetD_set_ne p k k' v d h]

/-- The seven profile reads performed by `nm_load`, evaluated on a
profile just written by `nm_save`: each key reads back the saved value. -/
theorem nm_save_gets (st : GState) (p : Profile) :
    pgetD (nm_save st p) "nm_state_on" (.b true) = st.nm_state_on ∧
    pgetD (nm_save st p) "nm_invert_image" (.b false) = st.nm_invert_image ∧
    pgetD (nm_save st p) "nm_invert_latex" (.b false) = st.nm_invert_latex ∧
    pgetD (nm_save st p) "nm_color_bl" (.s theme_color1) = st.nm_color_bl ∧
    pgetD (nm_save st p) "nm_color_td" (.s theme_color7) = st.nm_color_td ∧
    pgetD (nm_save st p) "nm_enable_in_dialogs" (.b true) = st.nm_enable_in_dialogs ∧
    pgetD (nm_save st p) "nm_transparent_latex" (.b false) = st.nm_transparent_latex := by
  simp [nm_save, pgetD_set]

/-- Counterexample to C4 as stated: saving from the initial state into an
empty profile writes exactly the seven scalar setting keys — no key
carries the colour remapping table. -/
theorem save_writes_only_seven_keys_cex :
    (nm_save (nm_initial_state env0 latex0) []).map Prod.fst = nm_setting_keys ∧
    dict_get (nm_save (nm_initial_state env0 latex0) []) "nm_custom_color_map"
      = none := by
  constructor <;> rfl

/-- C4 (amended): the colour remapping table is not persisted. `nm_save`
writes only the seven scalar setting keys (every other key of the profile
is left untouched), and `nm_load` reads only those seven keys (its result
is unchanged when any other key is set to anything). -/
theorem color_map_not_persisted :
    (∀ (st : GState) (p : Profile) (k : String), k ∉ nm_setting_keys →
        dict_get (nm_save st p) k = dict_get p k) ∧
    (∀ (env : Env) (p : Profile) (st : GState) (k : String) (v : PValue),
        k ∉ nm_setting_keys →
        nm_load env (dict_set p k v) st = nm_load env p st) := by
  constructor
  · intro st p k hk
    simp only [nm_setting_keys, List.mem_cons, List.mem_singleton] at hk
    push_neg at hk
    obtain ⟨h1, h2, h3, h4, h5, h6, h7, -⟩ := hk
    simp [nm_save, dict_get_set, Ne.symm h1, Ne.symm h2, Ne.symm h3,
          Ne.symm h4, Ne.symm h5, Ne.symm h6, Ne.symm h7]
  · intro env p st k v hk
    simp only [nm_setting_keys, List.mem_cons, List.mem_singleton] at hk
    push_neg at hk
    obtain ⟨h1, h2, h3, h4, h5, h6, h7, -⟩ := hk
    simp [nm_load, pgetD_set, h1, h2, h3, h4, h5, h6, h7]

/-- Witness for C4's amended statement at a concrete foreign key. -/
theorem color_map_not_persisted_witness :
    dict_get (nm_save st0 []) "nm_custom_color_map"
      = dict_get [] "nm_custom_color_map" ∧
    nm_load env0 (dict_set [] "nm_custom_color_map" (.s "x")) st0
      = nm_load env0 [] st0 :=
  ⟨color_map_not_persisted.1 st0 [] "nm_custom_color_map" (by decide),
   color_map_not_persisted.2 env0 [] st0 "nm_custom_color_map" (.s "x") (by decide)⟩

end NightModeV1

namespace NightModeV1

/-- The checkbox-setting tail of `nm_load` never changes the seven
setting globals (step 4: transparent latex). -/
theorem tlatex_step_settings (env : Env) (st : GState) (ws : List String) :
    (nm_load_menu_tlatex env st ws).st.nm_state_on = st.nm_state_on ∧
    (nm_load_menu_tlatex env st ws).st.nm_enable_in_dialogs = st.nm_enable_in_dialogs ∧
    (nm_load_menu_tlatex env st ws).st.nm_invert_image = st.nm_invert_image ∧
    (nm_load_menu_tlatex env st ws).st.nm_invert_latex = st.nm_invert_latex ∧
    (nm_load_menu_tlatex env st ws).st.nm_transparent_latex = st.nm_transparent_latex ∧
    (nm_load_menu_tlatex env st ws).st.nm_color_bl = st.nm_color_bl ∧
    (nm_load_menu_tlatex env st ws).st.nm_color_td = st.nm_color_td := by
  unfold nm_load_menu_tlatex
  split
  · split <;> simp
  · simp

/-- Step 3: enable-in-dialogs. -/
theorem endial_step_settings (env : Env) (st : GState) (ws : List String) :
    (nm_load_menu_endial env st ws).st.nm_state_on = st.nm_state_on ∧
    (nm_load_menu_endial env st ws).st.nm_enable_in_dialogs = st.nm_enable_in_dialogs ∧
    (nm_load_menu_endial env st ws).st.nm_invert_image = st.nm_invert_image ∧
    (nm_load_menu_endial env st ws).st.nm_invert_latex = st.nm_invert_latex ∧
    (nm_load_menu_endial env st ws).st.nm_transparent_latex = st.nm_transparent_latex ∧
    (nm_load_menu_endial env st ws).st.nm_color_bl = st.nm_color_bl ∧
    (nm_load_menu_endial env st ws).st.nm_color_td = st.nm_color_td := by
  unfold nm_load_menu_endial
  split
  · split
    · simp
    · simpa using tlatex_step_settings env _ ws
  · exact tlatex_step_settings env st ws

/-- Step 2: invert latex. -/
theorem ilatex_step_settings (env : Env) (st : GState) (ws : List String) :
    (nm_load_menu_ilatex env st ws).st.nm_state_on = st.nm_state_on ∧
    (nm_load_menu_ilatex env st ws).st.nm_enable_in_dialogs = st.nm_enable_in_dialogs ∧
    (nm_load_menu_ilatex env st ws).st.nm_invert_image = st.nm_invert_image ∧
    (nm_load_menu_ilatex env st ws).st.nm_invert_latex = st.nm_invert_latex ∧
    (nm_load_menu_ilatex env st ws).st.nm_transparent_latex = st.nm_transparent_latex ∧
    (nm_load_menu_ilatex env st ws).st.nm_color_bl = st.nm_color_bl ∧
    (nm_load_menu_ilatex env st ws).st.nm_color_td = st.nm_color_td := by
  unfold nm_load_menu_ilatex
  split
  · split
    · simp
    · simpa using endial_step_settings env _ ws
  · exact endial_step_settings env st ws

/-- Step 1: invert images. -/
theorem iimage_step_settings (env : Env) (st : GState) (ws : List String) :
    (nm_load_menu_iimage env st ws).st.nm_state_on = st.nm_state_on ∧
    (nm_load_menu_iimage env st ws).st.nm_enable_in_dialogs = st.nm_enable_in_dialogs ∧
    (nm_load_menu_iimage env st ws).st.nm_invert_image = st.nm_invert_image ∧
    (nm_load_menu_iimage env st ws).st.nm_invert_latex = st.nm_invert_latex ∧
    (nm_load_menu_iimage env st ws).st.nm_transparent_latex = st.nm_transparent_latex ∧
    (nm_load_menu_iimage env st ws).st.nm_color_bl = st.nm_color_bl ∧
    (nm_load_menu_iimage env st ws).st.nm_color_td = st.nm_color_td := by
  unfold nm_load_menu_iimage
  split
  · split
    · simp
    · simpa using ilatex_step_settings env _ ws
  · exact ilatex_step_settings env st ws

/-- Python `nm_on` leaves every global except `nm_state_on`, the styles and the
switch checkbox untouched; `nm_state_on` is either untouched (guard hit)
or set to `True`. -/
theorem nm_on_frame (env : Env) (st : GState) :
    (nm_on env st).st.nm_enable_in_dialogs = st.nm_enable_in_dialogs ∧
    (nm_on env st).st.nm_invert_image = st.nm_invert_image ∧
    (nm_on env st).st.nm_invert_latex = st.nm_invert_latex ∧
    (nm_on env st).st.nm_transparent_latex = st.nm_transparent_latex ∧
    (nm_on env st).st.nm_color_bl = st.nm_color_bl ∧
    (nm_on env st).st.nm_color_td = st.nm_color_td ∧
    (nm_on env st).st.nm_profile_loaded = st.nm_profile_loaded ∧
    (nm_on env st).st.nm_menu_iimage = st.nm_menu_iimage ∧
    (nm_on env st).st.nm_menu_ilatex = st.nm_menu_ilatex ∧
    (nm_on env st).st.nm_menu_endial = st.nm_menu_endial ∧
    (nm_on env st).st.nm_menu_tlatex = st.nm_menu_tlatex ∧
    (nm_on env st).st.latex = st.latex ∧
    ((nm_on env st).st.nm_state_on = st.nm_state_on ∨
      (nm_on env st).st.nm_state_on = .b true) := by
  cases h : st.nm_profile_loaded with
  | false => simp [nm_on, h]
  | true =>
    cases hc : pstr st.nm_color_td with
    | none => simp [nm_on, h, hc]
    | some td => cases hm : st.nm_menu_switch <;> simp [nm_on, h, hc, hm]

/-- The post-read part of `nm_load` keeps the seven settings it was
handed, except that a truthy `nm_state_on` is re-asserted to `True` by
`nm_on`. -/
theorem load_after_settings (env : Env) (st : GState) :
    (nm_load_after env st).st.nm_enable_in_dialogs = st.nm_enable_in_dialogs ∧
    (nm_load_after env st).st.nm_invert_image = st.nm_invert_image ∧
    (nm_load_after env st).st.nm_invert_latex = st.nm_invert_latex ∧
    (nm_load_after env st).st.nm_transparent_latex = st.nm_transparent_latex ∧
    (nm_load_after env st).st.nm_color_bl = st.nm_color_bl ∧
    (nm_load_after env st).st.nm_color_td = st.nm_color_td ∧
    (truthy st.nm_state_on = false →
      (nm_load_after env st).st.nm_state_on = st.nm_state_on) ∧
    (st.nm_state_on = .b true →
      (nm_load_after env st).st.nm_state_on = .b true) := by
  unfold nm_load_after
  cases htd : pstr st.nm_color_td with
  | none => simp
  | some td =>
    cases hbl : pstr st.nm_color_bl with
    | none => simp
    | some bl =>
      by_cases hson : truthy st.nm_state_on
      · obtain ⟨c1, c2, c3, c4, c5, c6, c7⟩ :=
          iimage_step_settings env
            (nm_on env { st with
              nm_css_custom_colors := nm_make_css_custom_colors_string td bl,
              nm_profile_loaded := true }).st
            (nm_on env { st with
              nm_css_custom_colors := nm_make_css_custom_colors_string td bl,
              nm_profile_loaded := true }).warnings
        obtain ⟨f1, f2, f3, f4, f5, f6, f7, f8, f9, f10, f11, f12, fst⟩ :=
          nm_on_frame env { st with
            nm_css_custom_colors := nm_make_css_custom_colors_string td bl,
            nm_profile_loaded := true }
        rcases fst with hstate | hstate <;>
          simp [hson, c1, c2, c3, c4, c5, c6, c7, f1, f2, f3, f4, f5, f6, hstate]
      · have hson' : truthy st.nm_state_on = false := by
          simpa using hson
        obtain ⟨c1, c2, c3, c4, c5, c6, c7⟩ :=
          iimage_step_settings env
            { st with
              nm_css_custom_colors := nm_make_css_custom_colors_string td bl,
              nm_profile_loaded := true } []
        simp [hson', c1, c2, c3, c4, c5, c6, c7]

end NightModeV1

namespace NightModeV1

/-- Python `nm_load` is the post-read procedure applied to the state with the
seven profile reads installed. -/
theorem nm_load_eq (env : Env) (p : Profile) (st2 : GState) :
    nm_load env p st2 = nm_load_after env { st2 with
      nm_state_on := pgetD p "nm_state_on" (.b true),
      nm_invert_image := pgetD p "nm_invert_image" (.b false),
      nm_invert_latex := pgetD p "nm_invert_latex" (.b false),
      nm_color_bl := pgetD p "nm_color_bl" (.s theme_color1),
      nm_color_td := pgetD p "nm_color_td" (.s theme_color7),
      nm_enable_in_dialogs := pgetD p "nm_enable_in_dialogs" (.b true),
      nm_transparent_latex := pgetD p "nm_transparent_latex" (.b false) } := rfl

/-- C1: `nm_save` followed by `nm_load` (from any intermediate state, on
any starting profile) restores all seven settings to the values they had
at save time. The state flag is a boolean in every state the program
reaches, which the hypothesis records. -/
theorem save_load_round_trip (env : Env) (p : Profile) (st st2 : GState)
    (b : Bool) (hb : st.nm_state_on = .b b) :
    (nm_load env (nm_save st p) st2).st.nm_state_on = st.nm_state_on ∧
    (nm_load env (nm_save st p) st2).st.nm_enable_in_dialogs = st.nm_enable_in_dialogs ∧
    (nm_load env (nm_save st p) st2).st.nm_invert_image = st.nm_invert_image ∧
    (nm_load env (nm_save st p) st2).st.nm_invert_latex = st.nm_invert_latex ∧
    (nm_load env (nm_save st p) st2).st.nm_transparent_latex = st.nm_transparent_latex ∧
    (nm_load env (nm_save st p) st2).st.nm_color_bl = st.nm_color_bl ∧
    (nm_load env (nm_save st p) st2).st.nm_color_td = st.nm_color_td := by
  obtain ⟨g1, g2, g3, g4, g5, g6, g7⟩ := nm_save_gets st p
  rw [nm_load_eq, g1, g2, g3, g4, g5, g6, g7]
  obtain ⟨a1, a2, a3, a4, a5, a6, s1, s2⟩ :=
    load_after_settings env { st2 with
      nm_state_on := st.nm_state_on,
      nm_invert_image := st.nm_invert_image,
      nm_invert_latex := st.nm_invert_latex,
      nm_color_bl := st.nm_color_bl,
      nm_color_td := st.nm_color_td,
      nm_enable_in_dialogs := st.nm_enable_in_dialogs,
      nm_transparent_latex := st.nm_transparent_latex }
  refine ⟨?_, by simpa using a1, by simpa using a2, by simpa using a3,
          by simpa using a4, by simpa using a5, by simpa using a6⟩
  cases b with
  | true =>
      have h2 := s2 (by simp [hb])
      conv_rhs => rw [hb]
      exact h2
  | false =>
      have h1 := s1 (by simp [hb, truthy_b])
      simpa using h1

/-- Witness for C1 at a concrete state and empty starting profile. -/
theorem save_load_round_trip_witness :
    (nm_load env0 (nm_save st1 []) st0).st.nm_state_on = st1.nm_state_on ∧
    (nm_load env0 (nm_save st1 []) st0).st.nm_enable_in_dialogs = st1.nm_enable_in_dialogs ∧
    (nm_load env0 (nm_save st1 []) st0).st.nm_invert_image = st1.nm_invert_image ∧
    (nm_load env0 (nm_save st1 []) st0).st.nm_invert_latex = st1.nm_invert_latex ∧
    (nm_load env0 (nm_save st1 []) st0).st.nm_transparent_latex = st1.nm_transparent_latex ∧
    (nm_load env0 (nm_save st1 []) st0).st.nm_color_bl = st1.nm_color_bl ∧
    (nm_load env0 (nm_save st1 []) st0).st.nm_color_td = st1.nm_color_td :=
  save_load_round_trip env0 [] st1 st0 false rfl

/-- C3: `nm_load` gives every absent setting key its default —
`nm_state_on` `True`, `nm_invert_image` `False`, `nm_invert_latex`
`False`, `nm_color_bl` `theme.color1`, `nm_color_td` `theme.color7`,
`nm_enable_in_dialogs` `True`, `nm_transparent_latex` `False` — and every
present key overrides its default (for the state flag, with the boolean
values the program stores). -/
theorem load_defaults (env : Env) (p : Profile) (st : GState) :
    (dict_get p "nm_state_on" = none →
      (nm_load env p st).st.nm_state_on = .b true) ∧
    (∀ b, dict_get p "nm_state_on" = some (.b b) →
      (nm_load env p st).st.nm_state_on = .b b) ∧
    (dict_get p "nm_invert_image" = none →
      (nm_load env p st).st.nm_invert_image = .b false) ∧
    (∀ v, dict_get p "nm_invert_image" = some v →
      (nm_load env p st).st.nm_invert_image = v) ∧
    (dict_get p "nm_invert_latex" = none →
      (nm_load env p st).st.nm_invert_latex = .b false) ∧
    (∀ v, dict_get p "nm_invert_latex" = some v →
      (nm_load env p st).st.nm_invert_latex = v) ∧
    (dict_get p "nm_color_bl" = none →
      (nm_load env p st).st.nm_color_bl = .s theme_color1) ∧
    (∀ v, dict_get p "nm_color_bl" = some v →
      (nm_load env p st).st.nm_color_bl = v) ∧
    (dict_get p "nm_color_td" = none →
      (nm_load env p st).st.nm_color_td = .s theme_color7) ∧
    (∀ v, dict_get p "nm_color_td" = some v →
      (nm_load env p st).st.nm_color_td = v) ∧
    (dict_get p "nm_enable_in_dialogs" = none →
      (nm_load env p st).st.nm_enable_in_dialogs = .b true) ∧
    (∀ v, dict_get p "nm_enable_in_dialogs" = some v →
      (nm_load env p st).st.nm_enable_in_dialogs = v) ∧
    (dict_get p "nm_transparent_latex" = none →
      (nm_load env p st).st.nm_transparent_latex = .b false) ∧
    (∀ v, dict_get p "nm_transparent_latex" = some v →
      (nm_load env p st).st.nm_transparent_latex = v) := by
  obtain ⟨a1, a2, a3, a4, a5, a6, s1, s2⟩ :=
    load_after_settings env { st with
      nm_state_on := pgetD p "nm_state_on" (.b true),
      nm_invert_image := pgetD p "nm_invert_image" (.b false),
      nm_invert_latex := pgetD p "nm_invert_latex" (.b false),
      nm_color_bl := pgetD p "nm_color_bl" (.s theme_color1),
      nm_color_td := pgetD p "nm_color_td" (.s theme_color7),
      nm_enable_in_dialogs := pgetD p "nm_enable_in_dialogs" (.b true),
      nm_transparent_latex := pgetD p "nm_transparent_latex" (.b false) }
    
  rw [nm_load_eq]
  refine ⟨?_, ?_, ?_, ?_, ?_, ?_, ?_, ?_, ?_, ?_, ?_, ?_, ?_, ?_⟩
  · intro h
    exact s2 (by simp [pgetD, h])
  · intro b h
    cases b with
    | true => exact s2 (by simp [pgetD, h])
    | false =>
        have := s1 (by simp [pgetD, h, truthy_b])
        rw [this]
        simp [pgetD, h]
  · intro h; rw [a2]; simp [pgetD, h]
  · intro v h; rw [a2]; simp [pgetD, h]
  · intro h; rw [a3]; simp [pgetD, h]
  · intro v h; rw [a3]; simp [pgetD, h]
  · intro h; rw [a5]; simp [pgetD, h]
  · intro v h; rw [a5]; simp [pgetD, h]
  · intro h; rw [a6]; simp [pgetD, h]
  · intro v h; rw [a6]; simp [pgetD, h]
  · intro h; rw [a1]; simp [pgetD, h]
  · intro v h; rw [a1]; simp [pgetD, h]
  · intro h; rw [a4]; simp [pgetD, h]
  · intro v h; rw [a4]; simp [pgetD, h]

/-- Witness for C3 on a profile with two keys present and five absent. -/
theorem load_defaults_witness :
    (nm_load env0 c3profile st0).st.nm_state_on = .b true ∧
    (nm_load env0 c3profile st0).st.nm_invert_image = .b true ∧
    (nm_load env0 c3profile st0).st.nm_color_bl = .s "#123456" ∧
    (nm_load env0 c3profile st0).st.nm_color_td = .s theme_color7 ∧
    (nm_load env0 c3profile st0).st.nm_invert_latex = .b false ∧
    (nm_load env0 c3profile st0).st.nm_enable_in_dialogs = .b true ∧
    (nm_load env0 c3profile st0).st.nm_transparent_latex = .b false := by
  obtain ⟨k1, k2, k3, k4, k5, k6, k7, k8, k9, k10, k11, k12, k13, k14⟩ :=
    load_defaults env0 c3profile st0
  exact ⟨k1 rfl, k4 _ rfl, k8 _ rfl, k9 rfl, k5 rfl, k11 rfl, k13 rfl⟩

end NightModeV1

namespace NightModeV1

/-- Counterexample to C6 as stated: on the Anki 2.0 branch, with both
inversion flags false, the written review-screen body CSS is not the
default body CSS plus the caller's body argument — line 580 appends the
scrollbar CSS as well. -/
theorem append_to_styles_scrollbar_cex :
    (nm_append_to_styles env2 false false st0.styles "" "B" "" "" "" "" "" "").reviewer_css
      ≠ env2.nm_default_css_body ++ "B" := by
  decide

/-- C6 (amended): for every invocation of `nm_append_to_styles`, the
assembled review-screen body style is the default body CSS plus the
caller's body argument, with the image-inversion rule appended exactly
when `nm_invert_image` is truthy and the latex-inversion rule appended
exactly when `nm_invert_latex` is truthy — so with both flags off it is
the default body CSS plus the body argument — except that on the Anki
2.0 branch the written reviewer CSS additionally carries the appended
scrollbar CSS; on 2.1 (where the captured default body CSS is the empty
string, per the `Env.wf` invariant the source establishes at line 114)
the content of the injected style element is exactly that. -/
theorem append_to_styles_body_rules (env : Env) (hwf : env.wf)
    (inv_img inv_lat : Bool) (s : Styles)
    (bottom body top decks other_bottoms overview menu waiting_screen : String) :
    (env.is21 = true →
      (nm_append_to_styles env inv_img inv_lat s bottom body top decks
          other_bottoms overview menu waiting_screen).reviewer_revHtml
        = env.nm_default_reviewer_html ++ "<style>" ++ env.nm_default_css_body
          ++ body ++ (if inv_img then nm_css_iimage else "")
          ++ (if inv_lat then nm_css_ilatex else "") ++ "</style>") ∧
    (env.is21 = false →
      (nm_append_to_styles env inv_img inv_lat s bottom body top decks
          other_bottoms overview menu waiting_screen).reviewer_css
        = env.nm_default_css_body
          ++ body ++ (if inv_img then nm_css_iimage else "")
          ++ (if inv_lat then nm_css_ilatex else "") ++ nm_css_scrollbar) := by
  constructor
  · intro h21
    have hbody : env.nm_default_css_body = "" := hwf h21
    simp [nm_append_to_styles, h21, hbody, String.append_assoc]
  · intro h20
    simp [nm_append_to_styles, h20, String.append_assoc]

/-- Witness for C6's amended statement: the 2.1 clause with the
image-inversion flag on, and the 2.0 clause with both flags off showing
the scrollbar suffix. -/
theorem append_to_styles_body_rules_witness :
    (nm_append_to_styles env0 true false st0.styles "B" "BODY" "T" "D"
        "OB" "OV" "M" "W").reviewer_revHtml
      = env0.nm_default_reviewer_html ++ "<style>" ++ env0.nm_default_css_body
        ++ "BODY" ++ (if true then nm_css_iimage else "")
        ++ (if false then nm_css_ilatex else "") ++ "</style>" ∧
    (nm_append_to_styles env2 false false st0.styles "" "B" "" "" "" "" "" "").reviewer_css
      = env2.nm_default_css_body ++ "B" ++ (if false then nm_css_iimage else "")
        ++ (if false then nm_css_ilatex else "") ++ nm_css_scrollbar :=
  ⟨(append_to_styles_body_rules env0 (fun _ => rfl) true false st0.styles
      "B" "BODY" "T" "D" "OB" "OV" "M" "W").1 rfl,
   (append_to_styles_body_rules env2 (fun h => absurd h (by decide)) false false
      st0.styles "" "B" "" "" "" "" "" "").2 rfl⟩

/-- Python `nm_off` restores every captured default style attribute except the
reviewer body: on 2.1 the reviewer HTML keeps an appended empty
`<style></style>` element, on 2.0 the reviewer CSS keeps the appended
scrollbar CSS. -/
theorem nm_off_styles (env : Env) (st : GState)
    (hload : st.nm_profile_loaded = true)
    (himg : truthy st.nm_invert_image = false)
    (hlat : truthy st.nm_invert_latex = false) :
    (nm_off env st).st.styles.mw_styleSheet = env.nm_default_css_menu ∧
    (nm_off env st).st.styles.toolbar_css = env.nm_default_css_top ∧
    (nm_off env st).st.styles.reviewer_bottomCSS = env.nm_default_css_bottom ∧
    (nm_off env st).st.styles.deckBrowser_css = env.nm_default_css_decks ∧
    (nm_off env st).st.styles.deckBrowser_bottom_css = env.nm_default_css_decks_bottom ∧
    (nm_off env st).st.styles.overview_css = env.nm_default_css_overview ∧
    (nm_off env st).st.styles.overview_bottom_css = env.nm_default_css_overview_bottom ∧
    (nm_off env st).st.styles.sharedCSS = env.nm_default_css_waiting_screen ∧
    (nm_off env st).st.styles.COLOUR_MARKED = env.DEFLAULT_COLOUR_MARKED ∧
    (nm_off env st).st.styles.COLOUR_SUSPENDED = env.DEFLAULT_COLOUR_SUSPENDED ∧
    (env.is21 = true → (nm_off env st).st.styles.reviewer_revHtml
      = env.nm_default_reviewer_html ++ "<style></style>") ∧
    (env.is21 = false → (nm_off env st).st.styles.reviewer_css
      = env.nm_default_css_body ++ nm_css_scrollbar) := by
  have hs : ("<style>" : String) ++ "</style>" = "<style></style>" := rfl
  cases hm : st.nm_menu_switch <;>
    cases h21 : env.is21 <;>
      simp [nm_off, nm_append_to_styles, hload, himg, hlat, hm, h21,
            String.append_assoc, hs]

/-- C2 (amended): turning night mode on and then off restores the
main-window stylesheet, toolbar CSS, reviewer bottom CSS, deck-browser
CSS and bottom CSS, overview CSS and bottom CSS, shared CSS and the
browser marked/suspended colours to the values captured at add-on load
time — but not the reviewer body: after `nm_off` the reviewer HTML (2.1)
carries an extra empty `<style></style>` element and the reviewer CSS
(2.0) carries the appended scrollbar CSS. -/
theorem on_off_round_trip_styles (env : Env) (st : GState)
    (hload : st.nm_profile_loaded = true)
    (himg : truthy st.nm_invert_image = false)
    (hlat : truthy st.nm_invert_latex = false) :
    (nm_off env (nm_on env st).st).st.styles.mw_styleSheet = env.nm_default_css_menu ∧
    (nm_off env (nm_on env st).st).st.styles.toolbar_css = env.nm_default_css_top ∧
    (nm_off env (nm_on env st).st).st.styles.reviewer_bottomCSS = env.nm_default_css_bottom ∧
    (nm_off env (nm_on env st).st).st.styles.deckBrowser_css = env.nm_default_css_decks ∧
    (nm_off env (nm_on env st).st).st.styles.deckBrowser_bottom_css = env.nm_default_css_decks_bottom ∧
    (nm_off env (nm_on env st).st).st.styles.overview_css = env.nm_default_css_overview ∧
    (nm_off env (nm_on env st).st).st.styles.overview_bottom_css = env.nm_default_css_overview_bottom ∧
    (nm_off env (nm_on env st).st).st.styles.sharedCSS = env.nm_default_css_waiting_screen ∧
    (nm_off env (nm_on env st).st).st.styles.COLOUR_MARKED = env.DEFLAULT_COLOUR_MARKED ∧
    (nm_off env (nm_on env st).st).st.styles.COLOUR_SUSPENDED = env.DEFLAULT_COLOUR_SUSPENDED ∧
    (env.is21 = true → (nm_off env (nm_on env st).st).st.styles.reviewer_revHtml
      = env.nm_default_reviewer_html ++ "<style></style>") ∧
    (env.is21 = false → (nm_off env (nm_on env st).st).st.styles.reviewer_css
      = env.nm_default_css_body ++ nm_css_scrollbar) := by
  obtain ⟨f1, f2, f3, f4, f5, f6, f7, f8, f9, f10, f11, f12, fst⟩ :=
    nm_on_frame env st
  exact nm_off_styles env (nm_on env st).st
    (by rw [f7, hload]) (by rw [f2, himg]) (by rw [f3, hlat])

/-- Witness for C2's amended statement: concrete round trip restores the
menu stylesheet and colours, and the reviewer HTML ends with the stray
empty style element. -/
theorem on_off_round_trip_styles_witness :
    (nm_off env0 (nm_on env0 st1).st).st.styles.mw_styleSheet
      = env0.nm_default_css_menu ∧
    (nm_off env0 (nm_on env0 st1).st).st.styles.COLOUR_MARKED
      = env0.DEFLAULT_COLOUR_MARKED ∧
    (nm_off env0 (nm_on env0 st1).st).st.styles.reviewer_revHtml
      = env0.nm_default_reviewer_html ++ "<style></style>" := by
  obtain ⟨w1, w2, w3, w4, w5, w6, w7, w8, w9, w10, w11, w12⟩ :=
    on_off_round_trip_styles env0 st1 rfl rfl rfl
  exact ⟨w1, w9, w11 rfl⟩

/-- Counterexample to C2 as stated: after `nm_on` then `nm_off` from a
loaded state whose styles are the host originals, the reviewer HTML is
not the value captured at load time (it gained `<style></style>`). -/
theorem on_off_reviewer_not_restored_cex :
    (nm_off env0 (nm_on env0 st1).st).st.styles.reviewer_revHtml
      ≠ st1.styles.reviewer_revHtml := by
  decide

end NightModeV1

namespace NightModeV1

/-- Counterexample to C5 as stated: on a profile where the invert-images
flag was saved as `True`, `nm_load` aborts with an `AttributeError`
(`nm_menu_iimage` is `None`: its creation in `nm_setup_menu` is commented
out), so no invert-images action exists — let alone one checked to match
the loaded `True` setting. -/
theorem load_menu_crash_cex :
    (nm_load env0 c5profile st0).ok = false ∧
    (nm_load env0 c5profile st0).st.nm_menu_iimage = none ∧
    truthy (nm_load env0 c5profile st0).st.nm_invert_image = true :=
  ⟨rfl, rfl, rfl⟩

/-- C5 (amended): `nm_load` on a freshly built menu sets the night-mode
switch and enable-in-dialogs actions checked exactly when their loaded
settings are truthy, provided the three inversion/transparency flags load
as false and the colours load as strings; the invert-images,
invert-latex and transparent-latex actions are never created (their
creation is commented out) and remain `None`, and if any of those three
flags is truthy in the profile, `nm_load` instead aborts with an
`AttributeError`. -/
theorem load_menu_checkboxes (env : Env) (p : Profile) (st : GState)
    (hsw : st.nm_menu_switch = some false)
    (hend : st.nm_menu_endial = some false)
    (hii : st.nm_menu_iimage = none)
    (hil : st.nm_menu_ilatex = none)
    (htl : st.nm_menu_tlatex = none)
    (himg : truthy (pgetD p "nm_invert_image" (.b false)) = false)
    (hlat : truthy (pgetD p "nm_invert_latex" (.b false)) = false)
    (htra : truthy (pgetD p "nm_transparent_latex" (.b false)) = false)
    (td : String) (htd : pgetD p "nm_color_td" (.s theme_color7) = .s td)
    (bl : String) (hbl : pgetD p "nm_color_bl" (.s theme_color1) = .s bl) :
    (nm_load env p st).ok = true ∧
    (nm_load env p st).st.nm_menu_switch
      = some (truthy (pgetD p "nm_state_on" (.b true))) ∧
    (nm_load env p st).st.nm_menu_endial
      = some (truthy (pgetD p "nm_enable_in_dialogs" (.b true))) ∧
    (nm_load env p st).st.nm_menu_iimage = none ∧
    (nm_load env p st).st.nm_menu_ilatex = none ∧
    (nm_load env p st).st.nm_menu_tlatex = none := by
  cases hson : truthy (pgetD p "nm_state_on" (.b true)) <;>
    cases he : truthy (pgetD p "nm_enable_in_dialogs" (.b true)) <;>
      simp [nm_load_eq, nm_load_after, nm_on, nm_load_menu_iimage,
            nm_load_menu_ilatex, nm_load_menu_endial, nm_load_menu_tlatex,
            hsw, hend, hii, hil, htl, himg, hlat, htra, htd, hbl, pstr_s,
            hson, he]

/-- Witness for C5's amended statement: loading an empty profile on the
freshly built menu checks the switch and enable-in-dialogs actions (both
settings default to `True`) and leaves the three uncreated actions
`None`. -/
theorem load_menu_checkboxes_witness :
    (nm_load env0 [] st0).ok = true ∧
    (nm_load env0 [] st0).st.nm_menu_switch
      = some (truthy (pgetD [] "nm_state_on" (.b true))) ∧
    (nm_load env0 [] st0).st.nm_menu_endial
      = some (truthy (pgetD [] "nm_enable_in_dialogs" (.b true))) ∧
    (nm_load env0 [] st0).st.nm_menu_iimage = none ∧
    (nm_load env0 [] st0).st.nm_menu_ilatex = none ∧
    (nm_load env0 [] st0).st.nm_menu_tlatex = none :=
  load_menu_checkboxes env0 [] st0 rfl rfl rfl rfl rfl rfl rfl rfl
    theme_color7 rfl theme_color1 rfl

end NightModeV1
